import Mathlib

/-
Verification development for the daily cart-reconciliation pipeline
(scripts/02_match.py, scripts/03_rules.py, scripts/04_aggregate.py,
scripts/config.py).

Shallow embedding conventions:
* Timestamps are modelled as epoch seconds UTC (`Int`); an absent or
  unparseable timestamp (`pd.to_datetime(errors="coerce")` producing NaT)
  is `none`.
* Monetary values are modelled by the result of the numeric parse
  (`pd.to_numeric(errors="coerce")`): `Option Rat`, `none` meaning absent
  or non-numeric.
* Float NaN propagation is modelled by `Option`: a NaN-valued `age_days`
  is `none`, and the pandas rule `NaN > t = False` becomes the `none` branch of
  `ageExceeds`.
* Dataframe rows become Lean structures; per-column assignments in the
  scripts become structure fields computed by functions of the row.
-/

namespace Pipeline

/-! ### String normalization (03_rules.py `_norm_str` / `_norm_one`)

`_norm_str`: strip, replace en dash and em dash by "-", collapse whitespace runs
(`re.sub(r"\s+", " ")`), lowercase.  Implemented over `List Char` so that
it evaluates by kernel reduction. -/

def isWsChar (c : Char) : Bool :=
  c = ' ' || c = '\t' || c = '\n' || c = '\r' || c = '\x0b' || c = '\x0c'

def trimChars (cs : List Char) : List Char :=
  ((cs.dropWhile isWsChar).reverse.dropWhile isWsChar).reverse

def trimString (s : String) : String :=
  String.mk (trimChars s.data)

def dashToHyphen (c : Char) : Char :=
  if c = '–' || c = '—' then '-' else c

/-- Replace each maximal run of whitespace by a single space
(`re.sub(r"\s+", " ", s)`), via a fold tracking whether the previous
character was whitespace. -/
def collapseWs (cs : List Char) : List Char :=
  (cs.foldl
    (fun (acc : List Char × Bool) c =>
      if isWsChar c then (if acc.2 then acc else (' ' :: acc.1, true))
      else (c :: acc.1, false))
    ([], false)).1.reverse

def normStr (s : String) : String :=
  String.mk ((collapseWs ((trimChars s.data).map dashToHyphen)).map Char.toLower)

/-! ### Configuration (config.py) -/

def STATUSES : List String :=
  ["In Preparation", "In PO Creation", "Completed", "Cancelled"]

def SUBSTATUSES_BY_STATUS : List (String × List String) :=
  [("In Preparation", ["Preparing", "On Hold"]),
   ("In PO Creation", ["Creating", "Error", "On Hold"]),
   ("Completed", ["Provider PO Assigned", "Missing PO Copy", "Unequal Values", "Error"]),
   ("Cancelled", ["Cancelled – Synchronized", "Cancelled – Unsynchronized"])]

def HOLD_PREPARATION_DAYS : Nat := 30
def HOLD_PO_CREATION_DAYS : Nat := 4
def STUCK_IN_ERROR_DAYS : Nat := 4

def VALUE_MISMATCH_ABS_TOLERANCE : Rat := mkRat 1 100

/-! ### Date parsing (`pd.to_datetime` on a `YYYY-MM-DD` snapshot string)

Modelled as days since 1970-01-01 (all snapshot dates of the pipeline lie
after 1970; earlier or invalid dates yield `none`). -/

def charDigit? (c : Char) : Option Nat :=
  if c.isDigit then some (c.toNat - '0'.toNat) else none

def digitsToNat? (cs : List Char) : Option Nat :=
  if cs.isEmpty then none
  else cs.foldl
    (fun acc c =>
      match acc, charDigit? c with
      | some n, some d => some (n * 10 + d)
      | _, _ => none)
    (some 0)

def splitOnChar (sep : Char) : List Char → List (List Char)
  | [] => [[]]
  | c :: rest =>
    match splitOnChar sep rest with
    | [] => if c = sep then [[], []] else [[c]]
    | g :: gs => if c = sep then [] :: g :: gs else (c :: g) :: gs

def isLeapYear (y : Nat) : Bool :=
  y % 4 = 0 && (y % 100 ≠ 0 || y % 400 = 0)

def daysInYear (y : Nat) : Nat :=
  if isLeapYear y then 366 else 365

def daysInMonth (y m : Nat) : Nat :=
  if m = 2 then (if isLeapYear y then 29 else 28)
  else if m = 4 || m = 6 || m = 9 || m = 11 then 30
  else 31

/-- Days from 1970-01-01 to year-month-day (valid Gregorian, `y ≥ 1970`). -/
def epochDays (y m d : Nat) : Nat :=
  (List.range (y - 1970)).foldl (fun acc i => acc + daysInYear (1970 + i)) 0
    + (List.range (m - 1)).foldl (fun acc i => acc + daysInMonth y (i + 1)) 0
    + (d - 1)

def parseDate (s : String) : Option Nat :=
  match splitOnChar '-' s.data with
  | [ys, ms, ds] =>
    match digitsToNat? ys, digitsToNat? ms, digitsToNat? ds with
    | some y, some m, some d =>
      if 1970 ≤ y && 1 ≤ m && m ≤ 12 && 1 ≤ d && d ≤ daysInMonth y m then
        some (epochDays y m d)
      else none
    | _, _, _ => none
  | _ => none

/-! ### Data model -/

/-- One normalized per-source record for one snapshot day (output of the
ingestion layer, input of `match_one_day`). -/
structure SrcRec where
  cart_id : String
  status : Option String := none
  substatus : Option String := none
  updated_at : Option Int := none
  total_value : Option Rat := none
deriving Repr, DecidableEq

/-- One row of the fact table as written by 02_match.py. -/
structure FactRow where
  snapshot_date : String
  cart_id : String
  status_a : Option String
  substatus_a : Option String
  updated_at_a : Option Int
  total_value_a : Option Rat
  status_b : Option String
  substatus_b : Option String
  updated_at_b : Option Int
  total_value_b : Option Rat
  exists_in_a : Bool
  exists_in_b : Bool
  status_mismatch : Bool
  substatus_mismatch : Bool
  value_mismatch : Bool
  any_mismatch : Bool
deriving Repr, DecidableEq

/-! ### Matcher (02_match.py) -/

/-- Model of `_value_mismatch`: `(pd.to_numeric(a) - pd.to_numeric(b)).abs() > tol`;
a NaN difference (either side missing/non-numeric) compares `False`. -/
def valueMismatchRaw (a b : Option Rat) (tol : Rat) : Bool :=
  match a, b with
  | some x, some y => decide (|x - y| > tol)
  | _, _ => false

/-- Model of `_coerce_join_keys`: the business key is coerced to a trimmed string. -/
def coerceKey (r : SrcRec) : SrcRec :=
  { r with cart_id := trimString r.cart_id }

/-- The `merge(how="outer", on=["cart_id"], indicator=True)` of the two
per-day record sets: every A row in order, expanded by its B matches (in B
order) or paired with `none`; then the unmatched B rows in order. -/
def outerJoinPairs (as bs : List SrcRec) : List (Option SrcRec × Option SrcRec) :=
  (as.map (fun a =>
    let ms := bs.filter (fun b => b.cart_id = a.cart_id)
    if ms.isEmpty then [((some a : Option SrcRec), (none : Option SrcRec))]
    else ms.map (fun b => (some a, some b)))).flatten
  ++ ((bs.filter (fun b => !(as.any (fun a => a.cart_id = b.cart_id)))).map
      (fun b => ((none : Option SrcRec), some b)))

/-- Build one fact row from one joined pair (the column block at
02_match.py lines 93–120): existence comes from the merge indicator, the
status/substatus mismatches compare the raw strings with NaN filled by
`""`, the value mismatch additionally requires existence on both sides. -/
def mkFact (tol : Rat) (dateStr : String) (oa ob : Option SrcRec) : FactRow :=
  let sa := oa.bind (·.status)
  let sb := ob.bind (·.status)
  let ssa := oa.bind (·.substatus)
  let ssb := ob.bind (·.substatus)
  let ea := oa.isSome
  let eb := ob.isSome
  let sm := ea && eb && decide (sa.getD "" ≠ sb.getD "")
  let ssm := ea && eb && decide (ssa.getD "" ≠ ssb.getD "")
  let vm := ea && eb && valueMismatchRaw (oa.bind (·.total_value)) (ob.bind (·.total_value)) tol
  { snapshot_date := dateStr
    cart_id := ((oa.map (·.cart_id)).orElse (fun _ => ob.map (·.cart_id))).getD ""
    status_a := sa
    substatus_a := ssa
    updated_at_a := oa.bind (·.updated_at)
    total_value_a := oa.bind (·.total_value)
    status_b := sb
    substatus_b := ssb
    updated_at_b := ob.bind (·.updated_at)
    total_value_b := ob.bind (·.total_value)
    exists_in_a := ea
    exists_in_b := eb
    status_mismatch := sm
    substatus_mismatch := ssm
    value_mismatch := vm
    any_mismatch := sm || ssm || vm }

/-- Model of `match_one_day`: coerce keys, outer-join, derive per-row columns. -/
def matchOneDay (tol : Rat) (dateStr : String) (aRecs bRecs : List SrcRec) : List FactRow :=
  let as := aRecs.map coerceKey
  let bs := bRecs.map coerceKey
  (outerJoinPairs as bs).map (fun p => mkFact tol dateStr p.1 p.2)

/-- Deduplication key of the fact store (`["snapshot_date", "cart_id"]`). -/
def keyOf (f : FactRow) : String × String :=
  (f.snapshot_date, f.cart_id)

/-- Model of `drop_duplicates(subset=["snapshot_date", "cart_id"], keep="last")`:
a row survives exactly when no later row shares its key. -/
def dedupKeepLast : List FactRow → List FactRow
  | [] => []
  | x :: xs =>
    if xs.any (fun y => decide (keyOf y = keyOf x)) then dedupKeepLast xs
    else x :: dedupKeepLast xs

/-- Inputs of one snapshot date (the per-date pair of clean files). -/
structure DayInput where
  date : String
  aRecs : List SrcRec
  bRecs : List SrcRec

/-- Model of `pd.concat(parts)` over all dates, in date order. -/
def concatParts (tol : Rat) (days : List DayInput) : List FactRow :=
  (days.map (fun d => matchOneDay tol d.date d.aRecs d.bRecs)).flatten

/-- Model of 02_match.py `main`: concatenate the per-date outputs and only then
deduplicate on (snapshot_date, cart_id), keeping the last row. -/
def buildFactStore (tol : Rat) (days : List DayInput) : List FactRow :=
  dedupKeepLast (concatParts tol days)

/-! ### Rule engine (03_rules.py) -/

/-- Model of `compute_age_days`: the latest known update is the A timestamp
if present else the B timestamp (`upd_a.fillna(upd_b)`); age in days is the difference to the
snapshot midnight, `none` (NaN) when either side of the subtraction is
missing. -/
def computeAgeDays (r : FactRow) : Option Rat :=
  match parseDate r.snapshot_date, r.updated_at_a.orElse (fun _ => r.updated_at_b) with
  | some days, some u => some ((((days : Int) * 86400 - u : Int) : Rat) / 86400)
  | _, _ => none

/-- Model of `df["age_days"] > float(t)`: a NaN age compares `False`. -/
def ageExceeds (a : Option Rat) (t : Rat) : Bool :=
  match a with
  | some x => decide (x > t)
  | none => false

def statusNormA (r : FactRow) : Option String := r.status_a.map normStr

def substatusNormA (r : FactRow) : Option String := r.substatus_a.map normStr

def inprepOnHoldGt30d (r : FactRow) : Bool :=
  decide (statusNormA r = some "in preparation") &&
  decide (substatusNormA r = some "on hold") &&
  ageExceeds (computeAgeDays r) (HOLD_PREPARATION_DAYS : Rat)

def inpoOnHoldGt4d (r : FactRow) : Bool :=
  decide (statusNormA r = some "in po creation") &&
  decide (substatusNormA r = some "on hold") &&
  ageExceeds (computeAgeDays r) (HOLD_PO_CREATION_DAYS : Rat)

def inpoErrorStuckGt4d (r : FactRow) : Bool :=
  decide (statusNormA r = some "in po creation") &&
  decide (substatusNormA r = some "error") &&
  ageExceeds (computeAgeDays r) (STUCK_IN_ERROR_DAYS : Rat)

def completedMissingPoCopy (r : FactRow) : Bool :=
  decide (statusNormA r = some "completed") &&
  decide (substatusNormA r = some "missing po copy")

def completedUnequalValues (r : FactRow) : Bool :=
  decide (statusNormA r = some "completed") &&
  decide (substatusNormA r = some "unequal values")

/-- Note, 03_rules.py line 124: the comparison literal is
`"cancelled - unsynchronized"`, spaces around the hyphen. -/
def cancelledUnsynchronized (r : FactRow) : Bool :=
  decide (statusNormA r = some "cancelled") &&
  decide (substatusNormA r = some "cancelled - unsynchronized") &&
  !r.exists_in_b

def cancelledSynchronized (r : FactRow) : Bool :=
  decide (statusNormA r = some "cancelled") &&
  decide (substatusNormA r = some "cancelled - synchronized") &&
  r.exists_in_b

/-- The reference vocabulary, normalized defensively
(`unknown_status_substatus` lines 69–77). -/
def statusesNorm : List String := STATUSES.map normStr

def subByStatusNorm : List (String × List String) :=
  SUBSTATUSES_BY_STATUS.map (fun p => (normStr p.1, p.2.map normStr))

def allowedSubs (s : String) : List String :=
  ((subByStatusNorm.find? (fun p => decide (p.1 = s))).map (·.2)).getD []

/-- Model of `unknown_status_substatus`: the A-side status is unknown when present
and not in the normalized status set; the substatus is bad when both are
present and the substatus is not in the allowed set of the status (empty for an
unknown status). -/
def unknownStatusOrSubstatus (r : FactRow) : Bool :=
  let st := statusNormA r
  let su := substatusNormA r
  let unknownStatus :=
    match st with
    | some s => !(statusesNorm.contains s)
    | none => false
  let badSub :=
    match st, su with
    | some s, some u => !((allowedSubs s).contains u)
    | _, _ => false
  unknownStatus || badSub

def hardIssue (r : FactRow) : Bool :=
  inprepOnHoldGt30d r || inpoOnHoldGt4d r || inpoErrorStuckGt4d r ||
  completedMissingPoCopy r || completedUnequalValues r || cancelledUnsynchronized r

/-- Warning logic, 03_rules.py lines 156–168: one-sided existence, or both-sided
existence with one of the five core warning columns set. -/
def warningFlag (r : FactRow) : Bool :=
  (r.exists_in_a.xor r.exists_in_b) ||
  (r.exists_in_a && r.exists_in_b &&
    (cancelledSynchronized r || unknownStatusOrSubstatus r ||
     r.status_mismatch || r.substatus_mismatch || r.value_mismatch))

def hasIssue (r : FactRow) : Bool :=
  hardIssue r || warningFlag r

/-- The columns 03_rules.py adds to the fact table. -/
structure Derived where
  age_days : Option Rat
  inprep_on_hold_gt_30d : Bool
  inpo_on_hold_gt_4d : Bool
  inpo_error_stuck_gt_4d : Bool
  completed_missing_po_copy : Bool
  completed_unequal_values : Bool
  cancelled_unsynchronized : Bool
  cancelled_synchronized : Bool
  unknown_status_or_substatus : Bool
  hard_issue : Bool
  warning : Bool
  has_issue : Bool
deriving Repr, DecidableEq

def computeDerived (r : FactRow) : Derived :=
  { age_days := computeAgeDays r
    inprep_on_hold_gt_30d := inprepOnHoldGt30d r
    inpo_on_hold_gt_4d := inpoOnHoldGt4d r
    inpo_error_stuck_gt_4d := inpoErrorStuckGt4d r
    completed_missing_po_copy := completedMissingPoCopy r
    completed_unequal_values := completedUnequalValues r
    cancelled_unsynchronized := cancelledUnsynchronized r
    cancelled_synchronized := cancelledSynchronized r
    unknown_status_or_substatus := unknownStatusOrSubstatus r
    hard_issue := hardIssue r
    warning := warningFlag r
    has_issue := hasIssue r }

/-- One row of the persisted fact table: the matcher-written columns plus
the derived columns once the rule stage has run (`none` before). -/
structure StoreRow where
  fact : FactRow
  derived : Option Derived
deriving Repr, DecidableEq

/-- Model of 03_rules.py `main`: recompute every derived column from the
matcher-written columns, overwriting any prior values; no row is added,
removed or reordered and no matcher column is altered. -/
def rulesStage (s : List StoreRow) : List StoreRow :=
  s.map (fun r => { fact := r.fact, derived := some (computeDerived r.fact) })

/-! ### Aggregator (04_aggregate.py) -/

/-- A rule-annotated fact row as the aggregator consumes it. -/
abbrev AnnRow := FactRow × Derived

def annStore (facts : List FactRow) : List AnnRow :=
  facts.map (fun f => (f, computeDerived f))

/-- Selection condition of `build_issue_cases` (lines 91–98). -/
def selectIssueCase (a : AnnRow) : Bool :=
  a.2.has_issue || a.1.any_mismatch ||
  (a.1.exists_in_a && !a.1.exists_in_b) ||
  (!a.1.exists_in_a && a.1.exists_in_b)

/-- Model of `build_reason`: the triggered rule columns in `reason_cols` order,
then `missing_in_b`, then `missing_in_a`. -/
def reasonParts (a : AnnRow) : List String :=
  (([("inprep_on_hold_gt_30d", a.2.inprep_on_hold_gt_30d),
     ("inpo_on_hold_gt_4d", a.2.inpo_on_hold_gt_4d),
     ("inpo_error_stuck_gt_4d", a.2.inpo_error_stuck_gt_4d),
     ("completed_missing_po_copy", a.2.completed_missing_po_copy),
     ("completed_unequal_values", a.2.completed_unequal_values),
     ("cancelled_unsynchronized", a.2.cancelled_unsynchronized),
     ("cancelled_synchronized", a.2.cancelled_synchronized),
     ("unknown_status_or_substatus", a.2.unknown_status_or_substatus),
     ("status_mismatch", a.1.status_mismatch),
     ("substatus_mismatch", a.1.substatus_mismatch),
     ("value_mismatch", a.1.value_mismatch)].filter (·.2)).map (·.1))
  ++ (if a.1.exists_in_a && !a.1.exists_in_b then ["missing_in_b"] else [])
  ++ (if a.1.exists_in_b && !a.1.exists_in_a then ["missing_in_a"] else [])

structure IssueCase where
  snapshot_date : String
  cart_id : String
  case_type : String
  reasons : List String
deriving Repr, DecidableEq

/-- Model of `build_issue_cases`: one case per selected row, typed `hard` when
`hard_issue` else `warning`, with the comma-joined reasons list (kept here
as the list of parts). -/
def buildIssueCases (rows : List AnnRow) : List IssueCase :=
  (rows.filter selectIssueCase).map (fun a =>
    { snapshot_date := a.1.snapshot_date
      cart_id := a.1.cart_id
      case_type := if a.2.hard_issue then "hard" else "warning"
      reasons := reasonParts a })

/-- One row of the daily KPI view. -/
structure KpiRow where
  snapshot_date : String
  rows : Nat
  orders_a : Nat
  orders_b : Nat
  missing_in_a : Nat
  missing_in_b : Nat
  any_mismatch : Nat
  hard_issue : Nat
  warning : Nat
  has_issue : Nat
  issue_rate : Rat
  hard_issue_rate : Rat
  warning_rate : Rat
  mismatch_rate : Rat
  missing_in_b_rate : Rat
deriving Repr, DecidableEq

/-- Model of `(num / den) if den else 0.0`. -/
def safeRate (num den : Nat) : Rat :=
  if den = 0 then 0 else (num : Rat) / (den : Rat)

/-- The KPI row of one snapshot-date group (`build_daily_kpis` body). -/
def buildDailyKpiGroup (d : String) (g : List AnnRow) : KpiRow :=
  let rows := g.length
  let orders_a := g.countP (fun a => a.1.exists_in_a)
  let orders_b := g.countP (fun a => a.1.exists_in_b)
  let missing_in_b := g.countP (fun a => a.1.exists_in_a && !a.1.exists_in_b)
  let missing_in_a := g.countP (fun a => !a.1.exists_in_a && a.1.exists_in_b)
  let any_mismatch := g.countP (fun a => a.1.any_mismatch)
  let hard := g.countP (fun a => a.2.hard_issue)
  let warn := g.countP (fun a => a.2.warning)
  let has := g.countP (fun a => a.2.has_issue)
  { snapshot_date := d
    rows := rows
    orders_a := orders_a
    orders_b := orders_b
    missing_in_a := missing_in_a
    missing_in_b := missing_in_b
    any_mismatch := any_mismatch
    hard_issue := hard
    warning := warn
    has_issue := has
    issue_rate := safeRate has rows
    hard_issue_rate := safeRate hard rows
    warning_rate := safeRate warn rows
    mismatch_rate := safeRate any_mismatch rows
    missing_in_b_rate := safeRate missing_in_b orders_a }

def distinctDates (rows : List AnnRow) : List String :=
  (rows.map (fun a => a.1.snapshot_date)).dedup

/-- Model of `build_daily_kpis`: one KPI row per snapshot-date group. -/
def buildDailyKpis (rows : List AnnRow) : List KpiRow :=
  (distinctDates rows).map (fun d =>
    buildDailyKpiGroup d (rows.filter (fun a => decide (a.1.snapshot_date = d))))

/-! ### Helper lemmas -/

/-- Every row of `matchOneDay` is a `mkFact` of one joined pair, so each
mismatch flag carries its two existence conjuncts, and `any_mismatch` is
the disjunction of the three mismatch flags. -/
theorem matchRow_shape {tol : Rat} {d : String} {as bs : List SrcRec} {f : FactRow}
    (hf : f ∈ matchOneDay tol d as bs) :
    (f.status_mismatch = true → f.exists_in_a = true ∧ f.exists_in_b = true) ∧
    (f.substatus_mismatch = true → f.exists_in_a = true ∧ f.exists_in_b = true) ∧
    (f.value_mismatch = true → f.exists_in_a = true ∧ f.exists_in_b = true) ∧
    f.any_mismatch = (f.status_mismatch || f.substatus_mismatch || f.value_mismatch) := by
  simp only [matchOneDay, List.mem_map] at hf
  obtain ⟨p, -, rfl⟩ := hf
  refine ⟨?_, ?_, ?_, rfl⟩ <;>
  · intro h
    simp only [mkFact, Bool.and_eq_true] at h ⊢
    exact ⟨h.1.1, h.1.2⟩

theorem dedupKeepLast_subset {l : List FactRow} {y : FactRow}
    (hy : y ∈ dedupKeepLast l) : y ∈ l := by
  induction l with
  | nil => simp [dedupKeepLast] at hy
  | cons x xs ih =>
    rw [dedupKeepLast] at hy
    split at hy
    · exact List.mem_cons_of_mem _ (ih hy)
    · cases hy with
      | head => exact List.mem_cons_self _ _
      | tail _ hy => exact List.mem_cons_of_mem _ (ih hy)

theorem dedupKeepLast_pairwise (l : List FactRow) :
    (dedupKeepLast l).Pairwise (fun x y => keyOf x ≠ keyOf y) := by
  induction l with
  | nil => simp [dedupKeepLast]
  | cons x xs ih =>
    rw [dedupKeepLast]
    split
    · exact ih
    · rename_i hno
      have hfalse : (xs.any fun y => decide (keyOf y = keyOf x)) = false :=
        Bool.eq_false_iff.mpr hno
      refine List.Pairwise.cons ?_ ih
      intro y hy hkey
      have hmem : y ∈ xs := dedupKeepLast_subset hy
      have hne := List.any_eq_false.mp hfalse y hmem
      simp only [decide_eq_true_eq] at hne
      exact hne hkey.symm

theorem dedupKeepLast_covers_key {l : List FactRow} {k : String × String}
    (hx : ∃ x ∈ l, keyOf x = k) : ∃ y ∈ dedupKeepLast l, keyOf y = k := by
  induction l with
  | nil => simp at hx
  | cons z zs ih =>
    rw [dedupKeepLast]
    obtain ⟨x, hmem, hk⟩ := hx
    by_cases hz : (zs.any fun y => decide (keyOf y = keyOf z)) = true
    · rw [if_pos hz]
      cases hmem with
      | head =>
        obtain ⟨w, hw, hkw⟩ := List.any_eq_true.mp hz
        simp only [decide_eq_true_eq] at hkw
        exact ih ⟨w, hw, hkw.trans hk⟩
      | tail _ hmem => exact ih ⟨x, hmem, hk⟩
    · rw [if_neg hz]
      cases hmem with
      | head => exact ⟨z, List.mem_cons_self _ _, hk⟩
      | tail _ hmem =>
        obtain ⟨y, hy, hky⟩ := ih ⟨x, hmem, hk⟩
        exact ⟨y, List.mem_cons_of_mem _ hy, hky⟩

theorem dedupKeepLast_covers {l : List FactRow} {x : FactRow} (hx : x ∈ l) :
    ∃ y ∈ dedupKeepLast l, keyOf y = keyOf x :=
  dedupKeepLast_covers_key ⟨x, hx, rfl⟩

theorem dedupKeepLast_last {l : List FactRow} {y : FactRow}
    (hy : y ∈ dedupKeepLast l) :
    ∃ l1 l2, l = l1 ++ y :: l2 ∧ ∀ z ∈ l2, keyOf z ≠ keyOf y := by
  induction l with
  | nil => simp [dedupKeepLast] at hy
  | cons x xs ih =>
    rw [dedupKeepLast] at hy
    split at hy
    · obtain ⟨l1, l2, heq, hl2⟩ := ih hy
      exact ⟨x :: l1, l2, by rw [heq]; rfl, hl2⟩
    · rename_i hno
      have hfalse : (xs.any fun z => decide (keyOf z = keyOf x)) = false :=
        Bool.eq_false_iff.mpr hno
      cases hy with
      | head =>
        refine ⟨[], xs, rfl, ?_⟩
        intro z hz
        have hne := List.any_eq_false.mp hfalse z hz
        simpa using hne
      | tail _ hy =>
        obtain ⟨l1, l2, heq, hl2⟩ := ih hy
        exact ⟨x :: l1, l2, by rw [heq]; rfl, hl2⟩

theorem safeRate_bounds {num den : Nat} (h : num ≤ den) :
    0 ≤ safeRate num den ∧ safeRate num den ≤ 1 ∧ (den = 0 → safeRate num den = 0) := by
  unfold safeRate
  by_cases hd : den = 0
  · simp [hd]
  · rw [if_neg hd]
    have hpos : (0 : Rat) < (den : Rat) := by
      exact_mod_cast Nat.pos_of_ne_zero hd
    refine ⟨by positivity, ?_, fun hc => absurd hc hd⟩
    rw [div_le_one hpos]
    exact_mod_cast h

/-! ### Concrete inputs used by witnesses and counterexamples -/

/-- Scenario C100: A-side only, In PO Creation / On Hold, updated at
2024-01-04 00:00:00 UTC, six days before snapshot 2024-01-10. -/
def c100Rec : SrcRec :=
  { cart_id := "C100"
    status := some "In PO Creation"
    substatus := some "On Hold"
    updated_at := some ((epochDays 2024 1 4 : Int) * 86400) }

/-- Scenario C200: both sides report the cart, values 100.00 and 100.02. -/
def c200A : SrcRec := { cart_id := "C200", total_value := some 100 }

def c200B : SrcRec := { cart_id := "C200", total_value := some (5001 / 50) }

/-- A cancelled A-side row whose substatus is written with a plain hyphen
and no surrounding spaces. -/
def cNoSpaceRec : SrcRec :=
  { cart_id := "K1"
    status := some "Cancelled"
    substatus := some "Cancelled-Unsynchronized" }

/-- A cancelled A-side row whose substatus matches the configured
vocabulary entry (en dash with surrounding spaces). -/
def cDashRec : SrcRec :=
  { cart_id := "K2"
    status := some "Cancelled"
    substatus := some "Cancelled – Unsynchronized" }

def dupRec1 : SrcRec := { cart_id := "D1", status := some "Completed" }

def dupRec2 : SrcRec := { cart_id := "D1", status := some "Cancelled" }

def w5A : SrcRec := { cart_id := "W5", status := some "Completed" }

def w5B : SrcRec := { cart_id := "W5", status := some "Cancelled" }

def w3Row : FactRow :=
  { snapshot_date := "2024-03-05"
    cart_id := "W3"
    status_a := none
    substatus_a := none
    updated_at_a := none
    total_value_a := none
    status_b := none
    substatus_b := none
    updated_at_b := none
    total_value_b := none
    exists_in_a := true
    exists_in_b := false
    status_mismatch := false
    substatus_mismatch := false
    value_mismatch := false
    any_mismatch := false }

/-! ### Claims -/

/-- C3: `age_days` is undefined (none, modelling NaN) if and only if both
update timestamps are absent or unparseable, given a parseable
`snapshot_date`; and an undefined age makes all three age-threshold rules
evaluate to false. -/
theorem claim_C3 (r : FactRow) (n : Nat) (h : parseDate r.snapshot_date = some n) :
    (computeAgeDays r = none ↔ (r.updated_at_a = none ∧ r.updated_at_b = none)) ∧
    (computeAgeDays r = none →
      inprepOnHoldGt30d r = false ∧ inpoOnHoldGt4d r = false ∧
      inpoErrorStuckGt4d r = false) := by
  have hiff : computeAgeDays r = none ↔ (r.updated_at_a = none ∧ r.updated_at_b = none) := by
    unfold computeAgeDays
    rw [h]
    cases hu : r.updated_at_a <;> cases hv : r.updated_at_b <;>
      simp [Option.orElse]
  refine ⟨hiff, fun hnone => ?_⟩
  refine ⟨?_, ?_, ?_⟩ <;>
    simp [inprepOnHoldGt30d, inpoOnHoldGt4d, inpoErrorStuckGt4d, hnone, ageExceeds]

theorem claim_C3_witness :
    parseDate w3Row.snapshot_date = some 19787 ∧
    (computeAgeDays w3Row = none ↔ (w3Row.updated_at_a = none ∧ w3Row.updated_at_b = none)) :=
  ⟨by decide, (claim_C3 w3Row 19787 (by decide)).1⟩

/-- C4: the warning flag holds exactly when the row exists in one source
only, or exists in both and one of `cancelled_synchronized`,
`unknown_status_or_substatus`, `status_mismatch`, `substatus_mismatch`,
`value_mismatch` holds. -/
theorem claim_C4 (r : FactRow) :
    warningFlag r = true ↔
      ((r.exists_in_a ≠ r.exists_in_b) ∨
       (r.exists_in_a = true ∧ r.exists_in_b = true ∧
        (cancelledSynchronized r = true ∨ unknownStatusOrSubstatus r = true ∨
         r.status_mismatch = true ∨ r.substatus_mismatch = true ∨
         r.value_mismatch = true))) := by
  unfold warningFlag
  cases ha : r.exists_in_a <;> cases hb : r.exists_in_b <;>
    simp [ha, hb, Bool.xor, Bool.or_eq_true, Bool.and_eq_true, or_assoc]

/-- C5: each mismatch flag of a matcher-produced row implies existence in
both sources. -/
theorem claim_C5 (tol : Rat) (d : String) (as bs : List SrcRec) (f : FactRow)
    (hf : f ∈ matchOneDay tol d as bs) :
    (f.status_mismatch = true → f.exists_in_a = true ∧ f.exists_in_b = true) ∧
    (f.substatus_mismatch = true → f.exists_in_a = true ∧ f.exists_in_b = true) ∧
    (f.value_mismatch = true → f.exists_in_a = true ∧ f.exists_in_b = true) := by
  obtain ⟨h1, h2, h3, -⟩ := matchRow_shape hf
  exact ⟨h1, h2, h3⟩

theorem claim_C5_witness :
    (mkFact (mkRat 1 100) "2024-02-01" (some (coerceKey w5A)) (some (coerceKey w5B)) ∈
      matchOneDay (mkRat 1 100) "2024-02-01" [w5A] [w5B]) ∧
    ((mkFact (mkRat 1 100) "2024-02-01" (some (coerceKey w5A))
        (some (coerceKey w5B))).status_mismatch = true →
      (mkFact (mkRat 1 100) "2024-02-01" (some (coerceKey w5A))
        (some (coerceKey w5B))).exists_in_a = true ∧
      (mkFact (mkRat 1 100) "2024-02-01" (some (coerceKey w5A))
        (some (coerceKey w5B))).exists_in_b = true) :=
  ⟨by decide, (claim_C5 (mkRat 1 100) "2024-02-01" [w5A] [w5B] _ (by decide)).1⟩

/-- C9: the rule stage is idempotent; it rewrites the derived columns as a
function of the matcher-written columns only and leaves those columns,
and the row list itself, unchanged. -/
theorem claim_C9 (s : List StoreRow) :
    rulesStage (rulesStage s) = rulesStage s ∧
    (rulesStage s).map (fun r => r.fact) = s.map (fun r => r.fact) := by
  constructor
  · simp [rulesStage, List.map_map, Function.comp]
  · simp [rulesStage, List.map_map, Function.comp]

/-- C2, counterexample: a row whose A-side substatus is literally
"Cancelled-Unsynchronized" — whose normalized form is
"cancelled-unsynchronized" — does not set `cancelled_unsynchronized`,
because 03_rules.py compares against "cancelled - unsynchronized" (the
normalized form of the configured vocabulary entry, which carries spaces
around the dash); `hard_issue` therefore stays false. -/
theorem claim_C2_counterexample :
    ∃ r : FactRow,
      matchOneDay VALUE_MISMATCH_ABS_TOLERANCE "2024-01-10" [cNoSpaceRec] [] = [r] ∧
      statusNormA r = some "cancelled" ∧
      substatusNormA r = some (normStr "Cancelled-Unsynchronized") ∧
      r.exists_in_b = false ∧
      (computeDerived r).cancelled_unsynchronized = false ∧
      (computeDerived r).hard_issue = false := by
  refine ⟨mkFact VALUE_MISMATCH_ABS_TOLERANCE "2024-01-10" (some (coerceKey cNoSpaceRec)) none,
    ?_, ?_, ?_, ?_, ?_, ?_⟩ <;> decide

/-- C2, amended: a Fact Row whose A-side status normalizes to "cancelled"
and whose A-side substatus normalizes to "cancelled - unsynchronized"
(the normalization of the configured "Cancelled – Unsynchronized", spaces
around the dash) and which does not exist in Source B gets the
`cancelled_unsynchronized` flag and hence `hard_issue`. -/
theorem claim_C2_amended (r : FactRow)
    (hst : statusNormA r = some "cancelled")
    (hss : substatusNormA r = some "cancelled - unsynchronized")
    (hb : r.exists_in_b = false) :
    cancelledUnsynchronized r = true ∧ hardIssue r = true := by
  have hflag : cancelledUnsynchronized r = true := by
    simp [cancelledUnsynchronized, hst, hss, hb]
  exact ⟨hflag, by simp [hardIssue, hflag]⟩

theorem claim_C2_amended_witness :
    statusNormA (mkFact VALUE_MISMATCH_ABS_TOLERANCE "2024-01-10"
        (some (coerceKey cDashRec)) none) = some "cancelled" ∧
    substatusNormA (mkFact VALUE_MISMATCH_ABS_TOLERANCE "2024-01-10"
        (some (coerceKey cDashRec)) none) = some "cancelled - unsynchronized" ∧
    (mkFact VALUE_MISMATCH_ABS_TOLERANCE "2024-01-10"
        (some (coerceKey cDashRec)) none).exists_in_b = false ∧
    cancelledUnsynchronized (mkFact VALUE_MISMATCH_ABS_TOLERANCE "2024-01-10"
        (some (coerceKey cDashRec)) none) = true ∧
    hardIssue (mkFact VALUE_MISMATCH_ABS_TOLERANCE "2024-01-10"
        (some (coerceKey cDashRec)) none) = true :=
  ⟨by decide, by decide, by decide,
   (claim_C2_amended _ (by decide) (by decide) (by decide)).1,
   (claim_C2_amended _ (by decide) (by decide) (by decide)).2⟩

/-- C6: for a matcher row existing in both sources, `value_mismatch`
holds exactly when both values parsed numerically and their absolute
difference exceeds the tolerance; and concretely, 100.00 against 100.02
mismatches at tolerance 0.01 but not at tolerance 0.05. -/
theorem claim_C6 :
    (∀ (tol : Rat) (d : String) (as bs : List SrcRec) (f : FactRow),
      f ∈ matchOneDay tol d as bs → f.exists_in_a = true → f.exists_in_b = true →
      (f.value_mismatch = true ↔
        ∃ x y, f.total_value_a = some x ∧ f.total_value_b = some y ∧ |x - y| > tol)) ∧
    (mkFact (1 / 100) "2024-01-11" (some c200A) (some c200B)).value_mismatch = true ∧
    (mkFact (5 / 100) "2024-01-11" (some c200A) (some c200B)).value_mismatch = false := by
  refine ⟨?_, ?_, ?_⟩
  · intro tol d as bs f hf ha hb
    simp only [matchOneDay, List.mem_map] at hf
    obtain ⟨⟨oa, ob⟩, -, rfl⟩ := hf
    simp only [mkFact] at ha hb ⊢
    cases oa with
    | none => simp at ha
    | some a =>
      cases ob with
      | none => simp at hb
      | some b =>
        cases hx : a.total_value <;> cases hy : b.total_value <;>
          simp [valueMismatchRaw, hx, hy]
  · simp [mkFact, c200A, c200B, valueMismatchRaw]
    rw [abs_sub_comm, abs_of_nonneg (by norm_num)]
    norm_num
  · simp [mkFact, c200A, c200B, valueMismatchRaw]
    rw [abs_sub_comm, abs_of_nonneg (by norm_num)]
    norm_num

theorem claim_C6_witness :
    (mkFact (1 / 100) "2024-01-11" (some (coerceKey c200A)) (some (coerceKey c200B)) ∈
      matchOneDay (1 / 100) "2024-01-11" [c200A] [c200B]) ∧
    (mkFact (1 / 100) "2024-01-11" (some (coerceKey c200A))
        (some (coerceKey c200B))).exists_in_a = true ∧
    (mkFact (1 / 100) "2024-01-11" (some (coerceKey c200A))
        (some (coerceKey c200B))).exists_in_b = true ∧
    ((mkFact (1 / 100) "2024-01-11" (some (coerceKey c200A))
        (some (coerceKey c200B))).value_mismatch = true ↔
      ∃ x y,
        (mkFact (1 / 100) "2024-01-11" (some (coerceKey c200A))
          (some (coerceKey c200B))).total_value_a = some x ∧
        (mkFact (1 / 100) "2024-01-11" (some (coerceKey c200A))
          (some (coerceKey c200B))).total_value_b = some y ∧
        |x - y| > 1 / 100) :=
  ⟨List.Mem.head _, rfl, rfl,
   claim_C6.1 (1 / 100) "2024-01-11" [c200A] [c200B] _ (List.Mem.head _) rfl rfl⟩

/-- C7, counterexample: with two same-key records in one source on one
day, the per-day outer-join output itself still contains both rows — no
per-key collapse happens before the join. -/
theorem claim_C7_counterexample :
    ((matchOneDay VALUE_MISMATCH_ABS_TOLERANCE "2024-01-10" [dupRec1, dupRec2] []).map
        (fun f => f.cart_id) = ["D1", "D1"]) ∧
    ((matchOneDay VALUE_MISMATCH_ABS_TOLERANCE "2024-01-10" [dupRec1, dupRec2] []).map
        (fun f => f.status_a) = [some "Completed", some "Cancelled"]) := by
  exact ⟨by decide, by decide⟩

/-- C7, amended: the fact store deduplicates on (snapshot_date, key)
after concatenating the per-day join outputs, keeping the last row: the
final store has pairwise distinct keys, covers every key of the
concatenated output, and each kept row is the last occurrence of its key
(duplicates are dropped, never summed or concatenated into the store). -/
theorem claim_C7_amended (tol : Rat) (days : List DayInput) :
    (buildFactStore tol days).Pairwise (fun x y => keyOf x ≠ keyOf y) ∧
    (∀ f ∈ concatParts tol days, ∃ g ∈ buildFactStore tol days, keyOf g = keyOf f) ∧
    (∀ g ∈ buildFactStore tol days,
      ∃ l1 l2, concatParts tol days = l1 ++ g :: l2 ∧ ∀ z ∈ l2, keyOf z ≠ keyOf g) :=
  ⟨dedupKeepLast_pairwise _,
   fun _ hf => dedupKeepLast_covers hf,
   fun _ hg => dedupKeepLast_last hg⟩

def dupDays : List DayInput :=
  [{ date := "2024-01-10", aRecs := [dupRec1, dupRec2], bRecs := [] }]

theorem claim_C7_amended_witness :
    (buildFactStore VALUE_MISMATCH_ABS_TOLERANCE dupDays).Pairwise
      (fun x y => keyOf x ≠ keyOf y) ∧
    (mkFact VALUE_MISMATCH_ABS_TOLERANCE "2024-01-10" (some (coerceKey dupRec1)) none ∈
      concatParts VALUE_MISMATCH_ABS_TOLERANCE dupDays) ∧
    (∃ g ∈ buildFactStore VALUE_MISMATCH_ABS_TOLERANCE dupDays,
      keyOf g = keyOf (mkFact VALUE_MISMATCH_ABS_TOLERANCE "2024-01-10"
        (some (coerceKey dupRec1)) none)) :=
  ⟨(claim_C7_amended VALUE_MISMATCH_ABS_TOLERANCE dupDays).1, by decide,
   (claim_C7_amended VALUE_MISMATCH_ABS_TOLERANCE dupDays).2.1 _ (by decide)⟩

/-- C10: on matcher-produced rows, the issue-case selection condition of
the aggregator coincides with `has_issue`. -/
theorem claim_C10 (tol : Rat) (d : String) (as bs : List SrcRec) (f : FactRow)
    (hf : f ∈ matchOneDay tol d as bs) :
    selectIssueCase (f, computeDerived f) = (computeDerived f).has_issue := by
  obtain ⟨h1, h2, h3, hany⟩ := matchRow_shape hf
  simp only [selectIssueCase, computeDerived]
  rw [hany]
  unfold hasIssue warningFlag
  cases ha : f.exists_in_a <;> cases hb : f.exists_in_b <;>
    cases hsm : f.status_mismatch <;> cases hssm : f.substatus_mismatch <;>
      cases hvm : f.value_mismatch <;>
    simp_all [Bool.xor]

theorem claim_C10_witness :
    (mkFact (1 / 100) "2024-02-02" (some (coerceKey w5A)) none ∈
      matchOneDay (1 / 100) "2024-02-02" [w5A] []) ∧
    selectIssueCase (mkFact (1 / 100) "2024-02-02" (some (coerceKey w5A)) none,
      computeDerived (mkFact (1 / 100) "2024-02-02" (some (coerceKey w5A)) none)) =
      (computeDerived (mkFact (1 / 100) "2024-02-02" (some (coerceKey w5A)) none)).has_issue :=
  ⟨by decide, claim_C10 (1 / 100) "2024-02-02" [w5A] [] _ (by decide)⟩

/-- C8: every rate of every daily KPI row lies in [0, 1] and is 0 when
its denominator is zero; in this total (rational) model no rate can be
NaN or infinite. -/
theorem claim_C8 (rows : List AnnRow) (k : KpiRow) (hk : k ∈ buildDailyKpis rows) :
    (0 ≤ k.issue_rate ∧ k.issue_rate ≤ 1 ∧ (k.rows = 0 → k.issue_rate = 0)) ∧
    (0 ≤ k.hard_issue_rate ∧ k.hard_issue_rate ≤ 1 ∧ (k.rows = 0 → k.hard_issue_rate = 0)) ∧
    (0 ≤ k.warning_rate ∧ k.warning_rate ≤ 1 ∧ (k.rows = 0 → k.warning_rate = 0)) ∧
    (0 ≤ k.mismatch_rate ∧ k.mismatch_rate ≤ 1 ∧ (k.rows = 0 → k.mismatch_rate = 0)) ∧
    (0 ≤ k.missing_in_b_rate ∧ k.missing_in_b_rate ≤ 1 ∧
      (k.orders_a = 0 → k.missing_in_b_rate = 0)) := by
  simp only [buildDailyKpis, List.mem_map] at hk
  obtain ⟨d, -, rfl⟩ := hk
  have hmono :
      (rows.filter (fun a => decide (a.1.snapshot_date = d))).countP
          (fun a => a.1.exists_in_a && !a.1.exists_in_b) ≤
        (rows.filter (fun a => decide (a.1.snapshot_date = d))).countP
          (fun a => a.1.exists_in_a) := by
    refine List.countP_mono_left ?_
    intro x _ hx
    exact ((Bool.and_eq_true _ _).mp hx).1
  refine ⟨?_, ?_, ?_, ?_, ?_⟩
  · simpa only [buildDailyKpiGroup] using safeRate_bounds (List.countP_le_length _)
  · simpa only [buildDailyKpiGroup] using safeRate_bounds (List.countP_le_length _)
  · simpa only [buildDailyKpiGroup] using safeRate_bounds (List.countP_le_length _)
  · simpa only [buildDailyKpiGroup] using safeRate_bounds (List.countP_le_length _)
  · simpa only [buildDailyKpiGroup] using safeRate_bounds hmono

def w8Row : AnnRow := (w3Row, computeDerived w3Row)

theorem claim_C8_witness :
    (buildDailyKpiGroup "2024-03-05"
        ([w8Row].filter (fun a => decide (a.1.snapshot_date = "2024-03-05"))) ∈
      buildDailyKpis [w8Row]) ∧
    (0 ≤ (buildDailyKpiGroup "2024-03-05"
        ([w8Row].filter (fun a => decide (a.1.snapshot_date = "2024-03-05")))).issue_rate ∧
      (buildDailyKpiGroup "2024-03-05"
        ([w8Row].filter (fun a => decide (a.1.snapshot_date = "2024-03-05")))).issue_rate ≤ 1 ∧
      ((buildDailyKpiGroup "2024-03-05"
        ([w8Row].filter (fun a => decide (a.1.snapshot_date = "2024-03-05")))).rows = 0 →
        (buildDailyKpiGroup "2024-03-05"
          ([w8Row].filter (fun a => decide (a.1.snapshot_date = "2024-03-05")))).issue_rate = 0)) :=
  ⟨List.Mem.head _, (claim_C8 [w8Row] _ (List.Mem.head _)).1⟩

/-- The single fact row that the matcher produces for scenario C100. -/
def c1Row : FactRow :=
  mkFact VALUE_MISMATCH_ABS_TOLERANCE "2024-01-10" (some (coerceKey c100Rec)) none

/-- C1: the end-to-end pipeline on the C100 scenario (A-side only, In PO
Creation / On Hold, updated six days before snapshot 2024-01-10) yields
existence only in A, an age of exactly 6 days, the `inpo_on_hold_gt_4d`
rule, `hard_issue`, `warning` and `has_issue`, and one emitted issue case
whose reasons contain both `inpo_on_hold_gt_4d` and `missing_in_b`. -/
theorem claim_C1 :
    matchOneDay VALUE_MISMATCH_ABS_TOLERANCE "2024-01-10" [c100Rec] [] = [c1Row] ∧
    c1Row.exists_in_a = true ∧ c1Row.exists_in_b = false ∧
    (computeDerived c1Row).age_days = some 6 ∧
    (computeDerived c1Row).inpo_on_hold_gt_4d = true ∧
    (computeDerived c1Row).hard_issue = true ∧
    (computeDerived c1Row).warning = true ∧
    (computeDerived c1Row).has_issue = true ∧
    ∃ c : IssueCase,
      buildIssueCases (annStore [c1Row]) = [c] ∧
      "inpo_on_hold_gt_4d" ∈ c.reasons ∧ "missing_in_b" ∈ c.reasons := by
  have hAge : computeAgeDays c1Row = some 6 := by
    have hP : parseDate c1Row.snapshot_date = some 19732 := by decide
    have hU : c1Row.updated_at_a = some 1704326400 := by decide
    have hB : c1Row.updated_at_b = none := by decide
    unfold computeAgeDays
    rw [hP, hU, hB]
    simp [Option.orElse]
    norm_num
  have hInprep : inprepOnHoldGt30d c1Row = false := by
    unfold inprepOnHoldGt30d
    rw [hAge]
    decide
  have hInpo : inpoOnHoldGt4d c1Row = true := by
    unfold inpoOnHoldGt4d
    rw [hAge]
    decide
  have hErr : inpoErrorStuckGt4d c1Row = false := by
    unfold inpoErrorStuckGt4d
    rw [hAge]
    decide
  have hHard : hardIssue c1Row = true := by
    unfold hardIssue
    rw [hInprep, hInpo, hErr]
    decide
  have hWarn : warningFlag c1Row = true := by decide
  have hHas : hasIssue c1Row = true := by
    unfold hasIssue
    rw [hHard, hWarn]
    rfl
  have hReasons :
      reasonParts (c1Row, computeDerived c1Row) = ["inpo_on_hold_gt_4d", "missing_in_b"] := by
    have hCmp : completedMissingPoCopy c1Row = false := by decide
    have hCuv : completedUnequalValues c1Row = false := by decide
    have hCun : cancelledUnsynchronized c1Row = false := by decide
    have hCsy : cancelledSynchronized c1Row = false := by decide
    have hUnk : unknownStatusOrSubstatus c1Row = false := by decide
    have hSm : c1Row.status_mismatch = false := by decide
    have hSsm : c1Row.substatus_mismatch = false := by decide
    have hVm : c1Row.value_mismatch = false := by decide
    have hEa : c1Row.exists_in_a = true := by decide
    have hEb : c1Row.exists_in_b = false := by decide
    simp [reasonParts, computeDerived, hInprep, hInpo, hErr, hCmp, hCuv, hCun,
      hCsy, hUnk, hSm, hSsm, hVm, hEa, hEb]
  have hSel : selectIssueCase (c1Row, computeDerived c1Row) = true := by
    simp only [selectIssueCase, computeDerived]
    rw [hHas]
    rfl
  refine ⟨by decide, by decide, by decide, ?_, ?_, ?_, ?_, ?_, ?_⟩
  · simpa only [computeDerived] using hAge
  · simpa only [computeDerived] using hInpo
  · simpa only [computeDerived] using hHard
  · simpa only [computeDerived] using hWarn
  · simpa only [computeDerived] using hHas
  · refine ⟨⟨"2024-01-10", "C100", "hard", ["inpo_on_hold_gt_4d", "missing_in_b"]⟩,
      ?_, by simp, by simp⟩
    have hHard2 : (computeDerived c1Row).hard_issue = true := by
      simpa only [computeDerived] using hHard
    have hSd : c1Row.snapshot_date = "2024-01-10" := by decide
    have hCi : c1Row.cart_id = "C100" := by decide
    simp [buildIssueCases, annStore, hSel, hReasons, hHard2, hSd, hCi]

end Pipeline
